import Mathlib

/-!
Shallow embedding of the Cortex agent runtime core
(`src/agent/conversation-manager.ts`, `src/agent/metrics-tracker.ts`,
and the `AgentRuntime` class) for checking the natural-language
specification.  Numbers (times, confidences, rates) are modelled as `ℚ`,
JS exceptions as `Except Err`, and the behaviour of external
collaborators (LLM, memory engine, speech engine, tool executors) as
oracles supplied to each operation.
-/

namespace Cortex

/-- A thrown JS `Error`, reduced to its message. -/
structure Err where
  message : String
deriving DecidableEq, Repr

abbrev Exc (α : Type) := Except Err α

/-! ## ConversationManager (`src/agent/conversation-manager.ts`) -/

inductive Role
  | user
  | assistant
  | system
deriving DecidableEq, Repr

structure ConversationMessage where
  id : String
  role : Role
  content : String
deriving DecidableEq, Repr

namespace ConversationManager

/-- JS `arr.slice(-n)`: the last `n` elements, except that `slice(-0)`
is `slice(0)`, the whole array. -/
def sliceLast (l : List ConversationMessage) (n : Nat) : List ConversationMessage :=
  if n = 0 then l else l.drop (l.length - n)

/-- `addMessage`: push, then if the length exceeds `maxHistory`,
keep only the last `maxHistory` entries. -/
def addMessage (maxHistory : Nat) (history : List ConversationMessage)
    (m : ConversationMessage) : List ConversationMessage :=
  let h := history ++ [m]
  if h.length > maxHistory then sliceLast h maxHistory else h

/-- The history after a sequence of `addMessage` calls starting from the
empty history. -/
def runAdds (maxHistory : Nat) (ms : List ConversationMessage) : List ConversationMessage :=
  ms.foldl (addMessage maxHistory) []

end ConversationManager

/-! ## MetricsTracker, value level (`src/agent/metrics-tracker.ts`) -/

structure MemoryUsage where
  conversationHistory : Nat
  workingMemory : Nat
  total : Nat
deriving DecidableEq, Repr

structure ErrorStats where
  total : Nat
  byType : List (String × Nat)
deriving DecidableEq, Repr

structure AgentMetrics where
  totalRequests : Nat
  averageProcessingTime : ℚ
  successRate : ℚ
  capabilityUsage : List (String × Nat)
  memoryUsage : MemoryUsage
  errors : ErrorStats
deriving DecidableEq, Repr

namespace MetricsTracker

def initializeMetrics : AgentMetrics :=
  { totalRequests := 0
    averageProcessingTime := 0
    successRate := 1
    capabilityUsage := []
    memoryUsage := { conversationHistory := 0, workingMemory := 0, total := 0 }
    errors := { total := 0, byType := [] } }

def updateMetrics (m : AgentMetrics) (processingTime : ℚ) (success : Bool)
    (conversationLength workingMemorySize : Nat) : AgentMetrics :=
  let totalRequests := m.totalRequests + 1
  let alpha : ℚ := 1 / 10
  let averageProcessingTime :=
    alpha * processingTime + (1 - alpha) * m.averageProcessingTime
  let successCount : ℚ := if success then 1 else 0
  let successRate :=
    (m.successRate * ((totalRequests : ℚ) - 1) + successCount) / (totalRequests : ℚ)
  { m with
    totalRequests := totalRequests
    averageProcessingTime := averageProcessingTime
    successRate := successRate
    memoryUsage :=
      { conversationHistory := conversationLength
        workingMemory := workingMemorySize
        total := conversationLength + workingMemorySize } }

/-- One recorded call to `updateMetrics`. -/
structure UpdateCall where
  processingTime : ℚ
  success : Bool
  conversationLength : Nat
  workingMemorySize : Nat
deriving DecidableEq, Repr

def runUpdates (calls : List UpdateCall) : AgentMetrics :=
  calls.foldl
    (fun m c => updateMetrics m c.processingTime c.success c.conversationLength c.workingMemorySize)
    initializeMetrics

def successes (calls : List UpdateCall) : Nat :=
  (calls.filter (fun c => c.success)).length

end MetricsTracker

/-! ## AgentRuntime (`AgentRuntime` class in `src/agent/…`)

The runtime is modelled as explicit state passing.  Each external
collaborator call is resolved by an oracle: `.ok v` is a returned value,
`.error e` a thrown exception.  `Exc α × RuntimeState` is the result of an
effectful step: the state component records the side effects performed up
to the return or the throw (a JS `throw` does not roll back effects). -/

structure Cluster where
  theme : String
deriving DecidableEq, Repr

inductive StepType
  | observation
  | analysis
  | planning
  | execution
  | reflection
  | error
deriving DecidableEq, Repr

structure AnalysisData where
  intent : String
  entities : List String
  topics : List String
  complexity : String
  urgency : String
  relatedEntities : Nat
  semanticMatches : Nat
  contextualMemories : Nat
  relatedClusters : Nat
  clusterThemes : List String
deriving DecidableEq, Repr

/-- A `ReasoningStep`'s `input`/`output` slot: dynamically typed in the
source (a string, `null`, the analysis record, or `{ response }`). -/
inductive StepValue
  | nullV
  | text (s : String)
  | analysis (a : AnalysisData)
  | response (r : String)
deriving DecidableEq, Repr

structure ReasoningStep where
  id : String
  type : StepType
  description : String
  input : StepValue
  output : StepValue
  confidence : ℚ
deriving DecidableEq, Repr

structure ResponseMetadata where
  processingTime : ℚ
  confidence : ℚ
deriving DecidableEq, Repr

structure AgentResponse where
  content : String
  reasoning : List ReasoningStep
  metadata : ResponseMetadata
  audioPath : Option String
deriving DecidableEq, Repr

inductive MsgRole
  | system
  | user
  | assistant
  | tool
deriving DecidableEq, Repr

structure ChatMessage where
  role : MsgRole
  content : String
  tool_call_id : Option String
deriving DecidableEq, Repr

/-- A tool call as returned by the LLM binding: the name and arguments
arrive either in the `function` shape or in the flat `tool`/`args` shape
(`executeToolCall` handles both). -/
structure ToolCallReq where
  functionField : Option (String × String)
  tool : String
  args : String
deriving DecidableEq, Repr

structure LLMReply where
  reply : String
  toolCalls : List ToolCallReq
deriving DecidableEq, Repr

inductive TranscriptionResult
  | str (s : String)
  | obj (transcribedText : Option String)
deriving DecidableEq, Repr

structure MemoryResults where
  entities : List String
  relationships : List String
deriving DecidableEq, Repr

structure Personality where
  name : String
  role : String
  expertise : List String
  communicationStyle : String
deriving DecidableEq, Repr

/-- The caller-supplied partial context of `processRequest`. -/
structure GraphContext where
  userId : Option String
  sessionId : Option String
  source : Option String
deriving DecidableEq, Repr

structure AgentContext where
  userId : String
  sessionId : String
  source : String
deriving DecidableEq, Repr

/-- Behaviour of the external collaborators during one request.  Calls the
runtime may repeat are indexed by the invocation counter kept in the
state. -/
structure Oracles where
  createMemoryInstance : Exc Unit
  transcribeFromAudio : String → Exc TranscriptionResult
  generateEmbeddings : String → Exc (List ℚ)
  addMemory : Bool → Exc Unit
  queryMemory : Exc MemoryResults
  getContextualMemories : Exc (List String)
  findRelatedClusters : Exc (List Cluster)
  createClusters : Nat → Exc (List Cluster)
  generateText : Nat → Exc LLMReply
  toolExec : String → String → Exc String
  textToSpeech : String → Exc String
  nowStart : Int
  nowCatch : Int

/-- The mutable fields of one `AgentRuntime` instance, plus
instrumentation counters (`metricsCalls`, `createClustersCalls`,
`llmCalls`) recording how often the tracker and the collaborators were
invoked. -/
structure RuntimeState where
  conversationHistory : List ConversationMessage
  maxConversationHistory : Nat
  personality : Personality
  metrics : AgentMetrics
  metricsCalls : List MetricsTracker.UpdateCall
  workingMemorySize : Nat
  clusters : List Cluster
  lastClusteringUpdate : Int
  clusteringEnabled : Bool
  isInitialized : Bool
  memoryPresent : Bool
  toolExecutors : List String
  idCounter : Nat
  createClustersCalls : Nat
  llmCalls : Nat
deriving DecidableEq, Repr

namespace AgentRuntime

/-- The names registered in `TOOL_EXECUTORS` (`src/tools/index.ts`). -/
def TOOL_EXECUTOR_NAMES : List String :=
  ["search_files", "create_file", "read_file", "modify_file",
   "list_directory", "delete_file", "move_file", "copy_file",
   "agentic_web_search", "extract_web_content", "monitor_web_changes",
   "smart_git_operations", "automated_code_review"]

/-- JS `s.includes(sub)` for nonempty `sub`. -/
def strContains (s sub : String) : Bool :=
  (s.splitOn sub).length > 1

/-- JS `v || d` for an optional string (empty string is falsy). -/
def jsOr (v : Option String) (d : String) : String :=
  match v with
  | some s => if s = "" then d else s
  | none => d

def generateId (st : RuntimeState) : String × RuntimeState :=
  ("agent_" ++ toString st.idCounter, { st with idCounter := st.idCounter + 1 })

def generateSessionId (st : RuntimeState) : String × RuntimeState :=
  ("session_" ++ toString st.idCounter, { st with idCounter := st.idCounter + 1 })

def classifyIntent (content : String) : String :=
  let lower := content.toLower
  if strContains lower "?" || lower.startsWith "what" || lower.startsWith "how"
      || lower.startsWith "why" then "question"
  else if strContains lower "please" || strContains lower "can you"
      || strContains lower "help me" then "request"
  else "statement"

def extractTopics (content : String) : List String :=
  let lower := content.toLower
  (if strContains lower "code" || strContains lower "programming"
      || strContains lower "development" then ["software_development"] else []) ++
  (if strContains lower "project" || strContains lower "task"
      || strContains lower "work" then ["project_management"] else []) ++
  (if strContains lower "team" || strContains lower "people"
      || strContains lower "meeting" then ["team_collaboration"] else [])

def assessComplexity (content : String) : String :=
  let words := (content.splitOn " ").length
  if words < 10 then "low" else if words < 50 then "medium" else "high"

def assessUrgency (content : String) : String :=
  let lower := content.toLower
  if (["urgent", "asap", "immediately", "critical", "emergency"].any
      fun w => strContains lower w) then "high"
  else if strContains lower "soon" || strContains lower "quickly" then "medium"
  else "low"

inductive AgentInput
  | str (s : String)
  | obj (text : Option String) (audio : Option String)
deriving DecidableEq, Repr

structure ProcessedInput where
  content : String
  source : String
  generateAudio : Bool
deriving DecidableEq, Repr

/-- `processInput`: raw text passes through; `{audio}` is transcribed
(failure propagates as an exception; an unusable transcription object
degrades to the marker string); `{text}` passes through; an empty object
yields the greeting. -/
def processInput (o : Oracles) (input : AgentInput) : Exc ProcessedInput :=
  match input with
  | .str s => .ok ⟨s, "text", false⟩
  | .obj text audio =>
    if jsOr audio "" ≠ "" then
      match o.transcribeFromAudio (jsOr audio "") with
      | .error e => .error e
      | .ok tr =>
        let content :=
          match tr with
          | .str s => s
          | .obj t => jsOr t "Audio transcription failed"
        .ok ⟨content, "audio", false⟩
    else if jsOr text "" ≠ "" then
      .ok ⟨jsOr text "", "text", false⟩
    else
      .ok ⟨"Hello! How can I help you today?", "text", false⟩

/-- `createAgentContext`: merge the caller's partial context with
defaults.  The `conversationHistory`, `capabilities`, `workingMemory` and
`config` fields of the source's context object are live views of the
runtime state, so reads of them are modelled as reads of the current
state. -/
def createAgentContext (st : RuntimeState) (pc : GraphContext) :
    AgentContext × RuntimeState :=
  match pc.sessionId with
  | some sid =>
    if sid = "" then
      (⟨jsOr pc.userId "default-user", (generateSessionId st).1,
        jsOr pc.source "conversation"⟩, (generateSessionId st).2)
    else
      (⟨jsOr pc.userId "default-user", sid, jsOr pc.source "conversation"⟩, st)
  | none =>
    (⟨jsOr pc.userId "default-user", (generateSessionId st).1,
      jsOr pc.source "conversation"⟩, (generateSessionId st).2)

def addToConversationHistory (st : RuntimeState) (role : Role) (content : String) :
    RuntimeState :=
  { (generateId st).2 with
    conversationHistory :=
      ConversationManager.addMessage st.maxConversationHistory
        st.conversationHistory ⟨(generateId st).1, role, content⟩ }

/-- `storeInMemory`: best-effort.  Embedding failure or a failing
`addMemory` falls back to a second `addMemory` without embeddings, whose
failure is swallowed; the state is unchanged in every case. -/
def storeInMemory (o : Oracles) (st : RuntimeState) (content : String) :
    RuntimeState :=
  if st.memoryPresent then
    match o.generateEmbeddings content with
    | .ok _ =>
      match o.addMemory true with
      | .ok _ => st
      | .error _ =>
        match o.addMemory false with
        | _ => st
    | .error _ =>
      match o.addMemory false with
      | _ => st
  else st

/-- `analyzeInput`: embedding failure is caught; a missing memory engine
yields an `error`-typed step with confidence 0; `queryMemory` failure
propagates; contextual-memory and cluster lookups degrade to empty
results. -/
def analyzeInput (o : Oracles) (st : RuntimeState) (content : String) :
    Exc ReasoningStep × RuntimeState :=
  let queryEmbedding : Option (List ℚ) :=
    match o.generateEmbeddings content with
    | .ok e => some e
    | .error _ => none
  if !st.memoryPresent then
    (.ok { id := (generateId st).1, type := .error
           description := "Memory instance is not initialized"
           input := .text content, output := .nullV, confidence := 0 },
     (generateId st).2)
  else
    match o.queryMemory with
    | .error e => (.error e, st)
    | .ok memoryResults =>
      let recent := st.conversationHistory.drop (st.conversationHistory.length - 3)
      let contextualMemories : List String :=
        if recent.length > 0 then
          match o.getContextualMemories with
          | .ok l => l
          | .error _ => []
        else []
      let relatedClusters : List Cluster :=
        if st.clusteringEnabled && queryEmbedding.isSome && !st.clusters.isEmpty then
          match o.findRelatedClusters with
          | .ok l => l
          | .error _ => []
        else []
      let analysis : AnalysisData :=
        { intent := classifyIntent content
          entities := memoryResults.entities
          topics := extractTopics content
          complexity := assessComplexity content
          urgency := assessUrgency content
          relatedEntities := memoryResults.entities.length
          semanticMatches :=
            if queryEmbedding.isSome then memoryResults.entities.length else 0
          contextualMemories := contextualMemories.length
          relatedClusters := relatedClusters.length
          clusterThemes := (relatedClusters.map Cluster.theme).take 2 }
      (.ok { id := (generateId st).1, type := .analysis
             description :=
               "Analyzed user input with semantic search, contextual memories, and clustering"
             input := .text content, output := .analysis analysis
             confidence := 8 / 10 },
       (generateId st).2)

def toolCallName (tc : ToolCallReq) : String :=
  match tc.functionField with
  | some f => f.1
  | none => tc.tool

def toolCallArgs (tc : ToolCallReq) : String :=
  match tc.functionField with
  | some f => f.2
  | none => tc.args

/-- `executeToolCall`: look the tool name up in the executor map; a missing
executor throws `No executor for tool <name>`; a registered executor
behaves as its oracle says. -/
def executeToolCall (o : Oracles) (st : RuntimeState) (tc : ToolCallReq) :
    Exc String :=
  let name := toolCallName tc
  if st.toolExecutors.contains name then o.toolExec name (toolCallArgs tc)
  else .error ⟨"No executor for tool " ++ name⟩

/-- `JSON.stringify({ error: message })`. -/
def errorJson (message : String) : String :=
  "\x7b\"error\":\"" ++ message ++ "\"\x7d"

/-- One iteration body of the per-call try/catch: the tool-role message
appended for one tool call (the serialized result on success, the
serialized error object on failure), with a freshly generated call id. -/
def toolResultMessage (o : Oracles) (st : RuntimeState) (tc : ToolCallReq) :
    ChatMessage × RuntimeState :=
  match executeToolCall o st tc with
  | .ok r => (⟨.tool, r, some (generateId st).1⟩, (generateId st).2)
  | .error e => (⟨.tool, errorJson e.message, some (generateId st).1⟩, (generateId st).2)

/-- Execute the requested tool calls sequentially, in order, appending one
tool-role message per call regardless of success. -/
def execToolCalls (o : Oracles) (st : RuntimeState) (msgs : List ChatMessage) :
    List ToolCallReq → List ChatMessage × RuntimeState
  | [] => (msgs, st)
  | tc :: rest =>
    execToolCalls o (toolResultMessage o st tc).2
      (msgs ++ [(toolResultMessage o st tc).1]) rest

def maxIterations : Nat := 5

/-- The `while (iterations < maxIterations)` loop of `generateResponse`,
by remaining iterations.  Each pass requests one LLM completion
(`st.llmCalls` counts the round-trips), appends the assistant reply, and
either executes the requested tool calls and continues, or stops with the
reply as the final response. -/
def toolLoop (o : Oracles) :
    Nat → RuntimeState → List ChatMessage →
      Exc (Option String × List ChatMessage) × RuntimeState
  | 0, st, msgs => (.ok (none, msgs), st)
  | n + 1, st, msgs =>
    match o.generateText st.llmCalls with
    | .error e => (.error e, st)
    | .ok llmResponse =>
      let st' := { st with llmCalls := st.llmCalls + 1 }
      let msgs' := msgs ++ [⟨.assistant, llmResponse.reply, none⟩]
      if llmResponse.toolCalls.length > 0 then
        toolLoop o n (execToolCalls o st' msgs' llmResponse.toolCalls).2
          (execToolCalls o st' msgs' llmResponse.toolCalls).1
      else
        (.ok (some llmResponse.reply, msgs'), st')

def buildSystemMessage (st : RuntimeState) : String :=
  let p := st.personality
  let base := "You are " ++ p.name ++ ", a " ++ p.role ++ ". "
  let base :=
    if p.expertise.length > 0 then
      base ++ "You specialize in: " ++ String.intercalate ", " p.expertise ++ ". "
    else base
  base ++
    "\n\nYour capabilities include:\n" ++
    "- Accessing and analyzing a knowledge graph of information\n" ++
    "- Providing technical guidance and strategic advice\n" ++
    "- Managing projects and breaking down complex tasks\n" ++
    "- Learning from conversations and building context\n" ++
    "- Communicating in a " ++ p.communicationStyle ++ " manner\n\n" ++
    "Respond naturally and helpfully to the user's current message."

/-- `buildContextMessage` reads `analysisStep.output` and dereferences its
fields: on the `error` step the output is `null`, so the very first field
access throws a `TypeError`.  A string output has none of the fields, so
every part is skipped and the result is `null`. -/
def buildContextMessage (analysisStep : ReasoningStep) : Exc (Option String) :=
  match analysisStep.output with
  | .nullV => .error ⟨"Cannot read properties of null"⟩
  | .analysis a =>
    let parts : List String :=
      (if a.intent ≠ "" then ["User intent appears to be: " ++ a.intent] else []) ++
      (if a.complexity ≠ "" then ["Request complexity: " ++ a.complexity] else []) ++
      (if a.urgency ≠ "" then ["Urgency level: " ++ a.urgency] else []) ++
      (if a.topics.length > 0 then
        ["Detected topics: " ++ String.intercalate ", " a.topics] else []) ++
      (if a.entities.length > 0 then
        ["Related entities from knowledge base: "
          ++ String.intercalate ", " (a.entities.take 5)] else []) ++
      (if a.relatedEntities > 0 then
        ["Found " ++ toString a.relatedEntities
          ++ " related entities in the knowledge base"] else []) ++
      (if a.relatedClusters > 0 then
        ["Found " ++ toString a.relatedClusters ++ " related memory clusters"] else []) ++
      (if a.clusterThemes.length > 0 then
        ["Relevant cluster themes: " ++ String.intercalate ", " a.clusterThemes] else []) ++
      (if a.contextualMemories > 0 then
        ["Retrieved " ++ toString a.contextualMemories
          ++ " contextual memories from conversation history"] else [])
    if parts.length = 0 then .ok none
    else .ok (some ("Current analysis:\n" ++ String.intercalate "\n" parts))
  | .text _ => .ok none
  | .response _ => .ok none

/-- `buildConversationMessages`: the persona system message, the last 10
conversation turns filtered to user/assistant roles, and the optional
analysis system message. -/
def buildConversationMessages (st : RuntimeState) (analysisStep : ReasoningStep) :
    Exc (List ChatMessage) :=
  let systemMessage : ChatMessage := ⟨.system, buildSystemMessage st, none⟩
  let recentHistory :=
    st.conversationHistory.drop (st.conversationHistory.length - 10)
  let historyMessages : List ChatMessage :=
    (recentHistory.filter fun m => m.role = Role.user || m.role = Role.assistant).map
      fun m =>
        ⟨(if m.role = Role.user then MsgRole.user else MsgRole.assistant), m.content, none⟩
  match buildContextMessage analysisStep with
  | .error e => .error e
  | .ok none => .ok ([systemMessage] ++ historyMessages)
  | .ok (some ctxMsg) =>
      .ok ([systemMessage] ++ historyMessages ++ [⟨.system, ctxMsg, none⟩])

/-- `generateResponse`: build the message sequence, run the bounded
tool-call loop, and wrap the final text (or the fixed fallback string when
the loop exhausted its 5 iterations) in a `reflection` step with the
static confidence 0.95. -/
def generateResponse (o : Oracles) (st : RuntimeState) (analysisStep : ReasoningStep) :
    Exc ReasoningStep × RuntimeState :=
  match buildConversationMessages st analysisStep with
  | .error e => (.error e, st)
  | .ok messages =>
    match toolLoop o maxIterations st messages with
    | (.error e, st') => (.error e, st')
    | (.ok (finalResponse, _msgs), st') =>
      let finalText :=
        match finalResponse with
        | some r => r
        | none => "Unable to generate response after maximum iterations."
      (.ok { id := (generateId st').1, type := .reflection
             description := "Generated response using LLM with tool calling loop"
             input := analysisStep.output, output := .response finalText
             confidence := 95 / 100 },
       (generateId st').2)

def calculateOverallConfidence (steps : List ReasoningStep) : ℚ :=
  if steps.length = 0 then 0
  else
    let weight : StepType → ℚ
      | .observation => 2 / 10
      | .analysis => 3 / 10
      | .planning => 2 / 10
      | .execution => 2 / 10
      | .reflection => 1 / 10
      | .error => 0
    let weightedSum := (steps.map fun s => s.confidence * weight s.type).sum
    let totalWeight := (steps.map fun s => weight s.type).sum
    if totalWeight > 0 then weightedSum / totalWeight else 0

/-- `reasonAndRespond`: analysis step, then the tool-call loop, then the
response assembly.  Note that `metadata.processingTime` is computed as the
sum of the reasoning steps' confidences, not as elapsed time. -/
def reasonAndRespond (o : Oracles) (st : RuntimeState) (content : String) :
    Exc AgentResponse × RuntimeState :=
  match analyzeInput o st content with
  | (.error e, st') => (.error e, st')
  | (.ok analysisStep, st') =>
    match generateResponse o st' analysisStep with
    | (.error e, st'') => (.error e, st'')
    | (.ok responseStep, st'') =>
      let reasoningSteps := [analysisStep, responseStep]
      let confidence := calculateOverallConfidence reasoningSteps
      (.ok { content :=
               match responseStep.output with
               | .response r => r
               | _ => ""
             reasoning := reasoningSteps
             metadata :=
               { processingTime := (reasoningSteps.map ReasoningStep.confidence).sum
                 confidence := confidence }
             audioPath := none }, st'')

/-- `initializeClustering`: lazily bootstrap the clusters; any failure is
caught and permanently disables clustering (the one-way latch). -/
def initializeClustering (o : Oracles) (st : RuntimeState) (now : Int) :
    RuntimeState :=
  if !st.clusteringEnabled then st
  else if !st.memoryPresent then st
  else
    match o.createClusters st.createClustersCalls with
    | .ok cs =>
      { st with
        clusters := cs
        lastClusteringUpdate := now
        createClustersCalls := st.createClustersCalls + 1 }
    | .error _ =>
      { st with
        clusteringEnabled := false
        createClustersCalls := st.createClustersCalls + 1 }

/-- `updateClusteringIfNeeded`: refresh the clusters when more than 5
minutes have elapsed since the last update.  The catch block only logs:
unlike `initializeClustering`, it does **not** clear `clusteringEnabled`. -/
def updateClusteringIfNeeded (o : Oracles) (st : RuntimeState) (now : Int) :
    RuntimeState :=
  if !st.clusteringEnabled then st
  else if !st.memoryPresent then st
  else
    let timeSinceLastUpdate := now - st.lastClusteringUpdate
    let updateInterval : Int := 5 * 60 * 1000
    if timeSinceLastUpdate > updateInterval then
      match o.createClusters st.createClustersCalls with
      | .ok cs =>
        { st with
          clusters := cs
          lastClusteringUpdate := now
          createClustersCalls := st.createClustersCalls + 1 }
      | .error _ =>
        { st with createClustersCalls := st.createClustersCalls + 1 }
    else st

/-- `initialize`: idempotent by the `isInitialized` flag; a failing memory
engine surfaces as a hard configuration error; afterwards clustering is
bootstrapped and the tool executors registered. -/
def initializeAgent (o : Oracles) (st : RuntimeState) : Exc Unit × RuntimeState :=
  if st.isInitialized then (.ok (), st)
  else
    match o.createMemoryInstance with
    | .error _ => (.error ⟨"Failed to initialize agent runtime"⟩, st)
    | .ok _ =>
      let st' := { st with memoryPresent := true, isInitialized := true }
      let st'' := initializeClustering o st' o.nowStart
      (.ok (), { st'' with toolExecutors := TOOL_EXECUTOR_NAMES })

def ensureInitialized (o : Oracles) (st : RuntimeState) : Exc Unit × RuntimeState :=
  if !st.isInitialized then initializeAgent o st else (.ok (), st)

/-- The private `updateMetrics` helper: delegates to the tracker with the
current history length and working-memory size, and records the call. -/
def updateMetricsOn (st : RuntimeState) (processingTime : ℚ) (success : Bool) :
    RuntimeState :=
  { st with
    metrics :=
      MetricsTracker.updateMetrics st.metrics processingTime success
        st.conversationHistory.length st.workingMemorySize
    metricsCalls :=
      st.metricsCalls ++
        [⟨processingTime, success, st.conversationHistory.length, st.workingMemorySize⟩] }

def generateAudioResponse (o : Oracles) (text : String) : String :=
  match o.textToSpeech text with
  | .ok path => path
  | .error _ => ""

/-- The body of `processRequest`'s `try` block (steps 1–8). -/
def processRequestTry (o : Oracles) (st : RuntimeState) (input : AgentInput)
    (pc : GraphContext) : Exc AgentResponse × RuntimeState :=
  match ensureInitialized o st with
  | (.error e, st') => (.error e, st')
  | (.ok _, st') =>
    match processInput o input with
    | .error e => (.error e, st')
    | .ok processedInput =>
      let st₂ := (createAgentContext st' pc).2
      let st₃ := addToConversationHistory st₂ .user processedInput.content
      let st₄ := storeInMemory o st₃ processedInput.content
      match reasonAndRespond o st₄ processedInput.content with
      | (.error e, st₅) => (.error e, st₅)
      | (.ok response, st₅) =>
        let st₆ := addToConversationHistory st₅ .assistant response.content
        let st₇ := updateMetricsOn st₆ (o.nowStart : ℚ) true
        if processedInput.generateAudio then
          let audioPath := generateAudioResponse o response.content
          (.ok { response with audioPath := some audioPath }, st₇)
        else
          (.ok response, st₇)

def apologyText (message : String) : String :=
  "I apologize, but I encountered an error while processing your request: " ++ message

/-- `processRequest`: run the pipeline; any exception is caught at the top
level, metrics are updated with `success = false`, and a textual apology
response with confidence 0 and the elapsed time is returned. -/
def processRequest (o : Oracles) (st : RuntimeState) (input : AgentInput)
    (pc : GraphContext) : AgentResponse × RuntimeState :=
  match processRequestTry o st input pc with
  | (.ok response, st') => (response, st')
  | (.error e, st') =>
    let st'' := updateMetricsOn st' (o.nowStart : ℚ) false
    ({ content := apologyText e.message
       reasoning := []
       metadata :=
         { processingTime := ((o.nowCatch - o.nowStart : Int) : ℚ)
           confidence := 0 }
       audioPath := none }, st'')

/-- `clear()`: empties the conversation history, working memory and
clusters; metrics and the clustering flag are untouched. -/
def clearState (st : RuntimeState) (now : Int) : RuntimeState :=
  { st with
    conversationHistory := []
    workingMemorySize := 0
    clusters := []
    lastClusteringUpdate := now }

end AgentRuntime

/-! ## MetricsTracker with an explicit heap

`getMetrics()` in the source is `return { ...this.metrics }`: a JS spread,
i.e. a freshly allocated top-level object whose field *values* are copied.
The nested `capabilityUsage`, `memoryUsage` and `errors` fields hold object
references, so the copy shares those nested objects with the tracker's
private state.  This model makes the references explicit as heap
addresses. -/

namespace HeapModel

structure MemoryUsageObj where
  conversationHistory : Nat
  workingMemory : Nat
  total : Nat
deriving DecidableEq, Repr

structure ErrorsObj where
  total : Nat
  byType : List (String × Nat)
deriving DecidableEq, Repr

/-- The top-level `AgentMetrics` object as it sits on the JS heap: the
`capabilityUsage`, `memoryUsage` and `errors` fields are references (heap
addresses) to separately allocated objects. -/
structure MetricsObj where
  totalRequests : Nat
  averageProcessingTime : ℚ
  successRate : ℚ
  capabilityUsage : Nat
  memoryUsage : Nat
  errors : Nat
deriving DecidableEq, Repr

structure Heap where
  metricsObjs : Nat → MetricsObj
  nextMetrics : Nat
  memObjs : Nat → MemoryUsageObj
  nextMem : Nat
  capObjs : Nat → List (String × Nat)
  nextCap : Nat
  errObjs : Nat → ErrorsObj
  nextErr : Nat

def emptyHeap : Heap :=
  { metricsObjs := fun _ => ⟨0, 0, 0, 0, 0, 0⟩
    nextMetrics := 0
    memObjs := fun _ => ⟨0, 0, 0⟩
    nextMem := 0
    capObjs := fun _ => []
    nextCap := 0
    errObjs := fun _ => ⟨0, []⟩
    nextErr := 0 }

def Heap.allocMetrics (h : Heap) (v : MetricsObj) : Nat × Heap :=
  (h.nextMetrics,
    { h with
      metricsObjs := Function.update h.metricsObjs h.nextMetrics v
      nextMetrics := h.nextMetrics + 1 })

def Heap.allocMem (h : Heap) (v : MemoryUsageObj) : Nat × Heap :=
  (h.nextMem,
    { h with
      memObjs := Function.update h.memObjs h.nextMem v
      nextMem := h.nextMem + 1 })

def Heap.allocCap (h : Heap) (v : List (String × Nat)) : Nat × Heap :=
  (h.nextCap,
    { h with
      capObjs := Function.update h.capObjs h.nextCap v
      nextCap := h.nextCap + 1 })

def Heap.allocErr (h : Heap) (v : ErrorsObj) : Nat × Heap :=
  (h.nextErr,
    { h with
      errObjs := Function.update h.errObjs h.nextErr v
      nextErr := h.nextErr + 1 })

/-- A caller writing through a `memoryUsage` reference, e.g.
`m.memoryUsage.total = v`. -/
def Heap.writeMemTotal (h : Heap) (a : Nat) (v : Nat) : Heap :=
  { h with memObjs := Function.update h.memObjs a { h.memObjs a with total := v } }

/-- A caller writing a top-level field of a metrics object, e.g.
`m.totalRequests = v`. -/
def Heap.writeTotalRequests (h : Heap) (a : Nat) (v : Nat) : Heap :=
  { h with
    metricsObjs :=
      Function.update h.metricsObjs a { h.metricsObjs a with totalRequests := v } }

/-- State of one `MetricsTracker` instance: the heap plus the address of
the private `this.metrics` object. -/
structure TrackerState where
  heap : Heap
  metricsAddr : Nat

/-- The constructor: `this.metrics = this.initializeMetrics()`, allocating
the nested objects and the top-level metrics object. -/
def new : TrackerState :=
  let (memA, h1) := emptyHeap.allocMem ⟨0, 0, 0⟩
  let (capA, h2) := h1.allocCap []
  let (errA, h3) := h2.allocErr ⟨0, []⟩
  let (mA, h4) := h3.allocMetrics ⟨0, 0, 1, capA, memA, errA⟩
  ⟨h4, mA⟩

/-- `getMetrics(): return { ...this.metrics }` — allocate a fresh
top-level object with the same field values (including the nested
references) and hand its address to the caller. -/
def getMetrics (s : TrackerState) : Nat × TrackerState :=
  let obj := s.heap.metricsObjs s.metricsAddr
  let (a, h) := s.heap.allocMetrics obj
  (a, ⟨h, s.metricsAddr⟩)

/-- The `memoryUsage` record an external reader observes by calling
`getMetrics` and dereferencing the returned object's `memoryUsage` field. -/
def observedMemoryUsage (s : TrackerState) : MemoryUsageObj :=
  let (a, s') := getMetrics s
  s'.heap.memObjs ((s'.heap.metricsObjs a).memoryUsage)

/-- The scenario of the counterexample: take a fresh tracker, call
`getMetrics`, and mutate `returned.memoryUsage.total = 999` through the
returned value. -/
def mutatedScenario : TrackerState :=
  let s0 := new
  let (a, s1) := getMetrics s0
  { s1 with
    heap := s1.heap.writeMemTotal ((s1.heap.metricsObjs a).memoryUsage) 999 }

end HeapModel

/-! ## Sample states and oracle behaviours used by concrete witnesses -/

/-- The state of a freshly constructed `AgentRuntime` under
`DEFAULT_CONFIG`. -/
def initState : RuntimeState :=
  { conversationHistory := []
    maxConversationHistory := 50
    personality :=
      { name := "Uncle Bob"
        role := "Personal Assistant & Technical Co-founder"
        expertise :=
          ["software development", "system architecture", "project management",
           "technical strategy", "problem solving", "knowledge management"]
        communicationStyle := "professional" }
    metrics := MetricsTracker.initializeMetrics
    metricsCalls := []
    workingMemorySize := 0
    clusters := []
    lastClusteringUpdate := 0
    clusteringEnabled := true
    isInitialized := false
    memoryPresent := false
    toolExecutors := []
    idCounter := 0
    createClustersCalls := 0
    llmCalls := 0 }

/-- A runtime that has completed initialization. -/
def readyState : RuntimeState :=
  { initState with
    isInitialized := true
    memoryPresent := true
    toolExecutors := AgentRuntime.TOOL_EXECUTOR_NAMES }

/-- A runtime whose clustering latch has already tripped. -/
def disabledState : RuntimeState :=
  { readyState with clusteringEnabled := false }

/-- Collaborators that always succeed. -/
def okOracles : Oracles :=
  { createMemoryInstance := .ok ()
    transcribeFromAudio := fun _ => .ok (.str "hi")
    generateEmbeddings := fun _ => .ok [1]
    addMemory := fun _ => .ok ()
    queryMemory := .ok ⟨[], []⟩
    getContextualMemories := .ok []
    findRelatedClusters := .ok []
    createClusters := fun _ => .ok []
    generateText := fun _ => .ok ⟨"hello", []⟩
    toolExec := fun _ _ => .ok "done"
    textToSpeech := fun _ => .ok "audio.wav"
    nowStart := 1000
    nowCatch := 1500 }

/-- Collaborators whose clustering routine always throws. -/
def failingClusterOracles : Oracles :=
  { okOracles with createClusters := fun _ => .error ⟨"clustering failed"⟩ }

/-- Collaborators whose memory query always throws. -/
def failingMemQueryOracles : Oracles :=
  { okOracles with queryMemory := .error ⟨"boom"⟩ }

/-- Collaborators whose every LLM reply requests one tool call. -/
def allToolCallOracles : Oracles :=
  { okOracles with
    generateText := fun _ => .ok ⟨"thinking", [⟨some ("read_file", "x"), "", ""⟩]⟩ }

/-- A concrete analysis record, as `analyzeInput` would produce for a
short statement with no memory matches. -/
def sampleAnalysis : AnalysisData :=
  { intent := "statement", entities := [], topics := [], complexity := "low"
    urgency := "low", relatedEntities := 0, semanticMatches := 0
    contextualMemories := 0, relatedClusters := 0, clusterThemes := [] }

/-- A concrete `analysis`-typed reasoning step wrapping `sampleAnalysis`. -/
def sampleAnalysisStep : ReasoningStep :=
  { id := "agent_0", type := .analysis
    description :=
      "Analyzed user input with semantic search, contextual memories, and clustering"
    input := .text "hi", output := .analysis sampleAnalysis
    confidence := 8 / 10 }

/-! ### Theorems about ConversationManager -/

namespace ConversationManager

theorem runAdds_concat (C : Nat) (ms : List ConversationMessage) (m : ConversationMessage) :
    runAdds C (ms ++ [m]) = addMessage C (runAdds C ms) m := by
  simp [runAdds, List.foldl_append]

theorem runAdds_eq_drop (C : Nat) (hC : 0 < C) (ms : List ConversationMessage) :
    runAdds C ms = ms.drop (ms.length - C) := by
  induction ms using List.reverseRecOn with
  | nil => simp [runAdds]
  | append_singleton ms m ih =>
    rw [runAdds_concat, ih]
    unfold addMessage sliceLast
    by_cases hlc : ms.length < C
    · have h1 : ms.length - C = 0 := by omega
      have h2 : ms.length + 1 - C = 0 := by omega
      simp only [h1, List.drop_zero, List.length_append, List.length_cons,
        List.length_nil, h2]
      rw [if_neg (by simp; omega)]
    · have hC' : C ≤ ms.length := by omega
      have hd : (ms.drop (ms.length - C)).length = C := by
        rw [List.length_drop]; omega
      rw [if_pos (by simp [hd])]
      rw [if_neg (by omega : ¬ C = 0)]
      have hlen1 : (ms.drop (ms.length - C) ++ [m]).length - C = 1 := by
        simp [hd]
      rw [hlen1]
      rw [List.drop_append_of_le_length (by omega : 1 ≤ (ms.drop (ms.length - C)).length)]
      rw [List.drop_drop]
      have hlen2 : (ms ++ [m]).length - C = ms.length + 1 - C := by simp
      rw [hlen2, List.drop_append_of_le_length
        (by omega : ms.length + 1 - C ≤ ms.length)]
      have hidx : ms.length - C + 1 = ms.length + 1 - C := by omega
      rw [hidx]

end ConversationManager

/-- C2: for every cap `C > 0` and every sequence of appended messages, after
each `addMessage` call the history length is at most `C` and the history is
exactly the last `min(N, C)` appended messages in append order (FIFO
eviction preserving the survivors' relative order). -/
theorem conversationManager_fifo_bound (C : Nat) (hC : 0 < C)
    (ms : List ConversationMessage) (n : Nat) :
    (ConversationManager.runAdds C (ms.take n)).length ≤ C ∧
      ConversationManager.runAdds C (ms.take n)
        = (ms.take n).drop ((ms.take n).length - C) := by
  refine ⟨?_, ConversationManager.runAdds_eq_drop C hC _⟩
  rw [ConversationManager.runAdds_eq_drop C hC, List.length_drop]
  omega

/-- Witness for C2: the spec's example scenario with cap 2 and three appends. -/
theorem conversationManager_fifo_bound_witness :
    (ConversationManager.runAdds 2
        (([⟨"1", .user, "hi"⟩, ⟨"2", .assistant, "hello"⟩,
           ⟨"3", .user, "bye"⟩] : List ConversationMessage).take 3)).length ≤ 2 ∧
      ConversationManager.runAdds 2
          (([⟨"1", .user, "hi"⟩, ⟨"2", .assistant, "hello"⟩,
             ⟨"3", .user, "bye"⟩] : List ConversationMessage).take 3)
        = (([⟨"1", .user, "hi"⟩, ⟨"2", .assistant, "hello"⟩,
             ⟨"3", .user, "bye"⟩] : List ConversationMessage).take 3).drop
            ((([⟨"1", .user, "hi"⟩, ⟨"2", .assistant, "hello"⟩,
                ⟨"3", .user, "bye"⟩] : List ConversationMessage).take 3).length - 2) :=
  conversationManager_fifo_bound 2 (by decide)
    [⟨"1", .user, "hi"⟩, ⟨"2", .assistant, "hello"⟩, ⟨"3", .user, "bye"⟩] 3

/-! ### Theorems about MetricsTracker (value level) -/

namespace MetricsTracker

def applyCall (m : AgentMetrics) (c : UpdateCall) : AgentMetrics :=
  updateMetrics m c.processingTime c.success c.conversationLength c.workingMemorySize

theorem runUpdates_eq_foldl (calls : List UpdateCall) :
    runUpdates calls = calls.foldl applyCall initializeMetrics := rfl

theorem applyCall_totalRequests (m : AgentMetrics) (c : UpdateCall) :
    (applyCall m c).totalRequests = m.totalRequests + 1 := rfl

theorem applyCall_successRate_mul (m : AgentMetrics) (c : UpdateCall) :
    (applyCall m c).successRate * ((applyCall m c).totalRequests : ℚ)
      = m.successRate * (m.totalRequests : ℚ) + (if c.success then 1 else 0) := by
  simp only [applyCall, updateMetrics]
  have hne : ((m.totalRequests + 1 : Nat) : ℚ) ≠ 0 := by
    exact_mod_cast Nat.succ_ne_zero m.totalRequests
  rw [div_mul_cancel₀ _ hne]
  push_cast
  ring

theorem successes_cons (c : UpdateCall) (calls : List UpdateCall) :
    successes (c :: calls) = (if c.success then 1 else 0) + successes calls := by
  simp only [successes, List.filter]
  cases h : c.success <;> simp <;> omega

theorem foldl_invariant (calls : List UpdateCall) : ∀ m : AgentMetrics,
    (calls.foldl applyCall m).totalRequests = m.totalRequests + calls.length ∧
      (calls.foldl applyCall m).successRate * (((calls.foldl applyCall m).totalRequests : Nat) : ℚ)
        = m.successRate * (m.totalRequests : ℚ) + (successes calls : ℚ) := by
  induction calls with
  | nil => intro m; simp [successes]
  | cons c calls ih =>
    intro m
    rw [List.foldl_cons]
    obtain ⟨h1, h2⟩ := ih (applyCall m c)
    refine ⟨by rw [h1, applyCall_totalRequests]; simp [List.length_cons]; omega, ?_⟩
    rw [h2, applyCall_successRate_mul, successes_cons]
    push_cast
    cases c.success <;> simp <;> ring

end MetricsTracker

/-- C7: after any nonempty sequence of `updateMetrics` calls on a fresh
tracker, `successRate` is exactly the running mean `s/k` of the success
indicator (`s` successes among `k` calls), despite the pre-update seed of
`1.0`. -/
theorem metricsTracker_successRate_running_mean (calls : List MetricsTracker.UpdateCall)
    (h : calls ≠ []) :
    (MetricsTracker.runUpdates calls).successRate
      = (MetricsTracker.successes calls : ℚ) / (calls.length : ℚ) := by
  obtain ⟨h1, h2⟩ := MetricsTracker.foldl_invariant calls MetricsTracker.initializeMetrics
  rw [MetricsTracker.runUpdates_eq_foldl]
  have hlen : (calls.length : ℚ) ≠ 0 := by
    have : calls.length ≠ 0 := by
      intro hc; exact h (List.length_eq_zero.mp hc)
    exact_mod_cast this
  have h0 : MetricsTracker.initializeMetrics.totalRequests = 0 := rfl
  have h0' : MetricsTracker.initializeMetrics.successRate = 1 := rfl
  rw [h0, h0'] at h2
  rw [h1, h0] at h2
  simp only [Nat.cast_zero, mul_zero, zero_add, Nat.zero_add] at h2
  rw [eq_div_iff hlen]
  exact h2

/-- Witness for C7: two calls, one success, yield `successRate = 1/2`. -/
theorem metricsTracker_successRate_running_mean_witness :
    (MetricsTracker.runUpdates [⟨200, true, 5, 3⟩, ⟨100, false, 5, 3⟩]).successRate
      = (MetricsTracker.successes [⟨200, true, 5, 3⟩, ⟨100, false, 5, 3⟩] : ℚ)
          / (([⟨200, true, 5, 3⟩, ⟨100, false, 5, 3⟩] : List MetricsTracker.UpdateCall).length : ℚ) :=
  metricsTracker_successRate_running_mean
    [⟨200, true, 5, 3⟩, ⟨100, false, 5, 3⟩] (by decide)

/-- C5 counterexample: `getMetrics` returns only a shallow copy.  Mutating
the nested `memoryUsage` structure of the returned value (setting its
`total` to 999) changes the tracker's internal state and what a subsequent
`getMetrics` call observes: the internal total becomes 999 where it was 0. -/
theorem metrics_snapshot_counterexample :
    HeapModel.observedMemoryUsage HeapModel.new = ⟨0, 0, 0⟩ ∧
      (HeapModel.mutatedScenario.heap.memObjs
          ((HeapModel.mutatedScenario.heap.metricsObjs
              HeapModel.mutatedScenario.metricsAddr).memoryUsage)).total = 999 ∧
      (HeapModel.observedMemoryUsage HeapModel.mutatedScenario).total = 999 := by
  refine ⟨?_, ?_, ?_⟩ <;> rfl

/-- C5 amended: the spread in `getMetrics` is a shallow copy.  The returned
top-level object is freshly allocated, so writing a top-level field through
it leaves the tracker's internal metrics object unchanged; but the returned
object's nested `memoryUsage`, `errors` and `capabilityUsage` references
are shared with the internal object, so mutations through them are visible
to the tracker. -/
theorem metrics_snapshot_shallow (s : HeapModel.TrackerState)
    (wf : s.metricsAddr < s.heap.nextMetrics) :
    (HeapModel.getMetrics s).1 ≠ s.metricsAddr ∧
      (HeapModel.getMetrics s).2.metricsAddr = s.metricsAddr ∧
      (((HeapModel.getMetrics s).2.heap.metricsObjs (HeapModel.getMetrics s).1).memoryUsage
          = ((HeapModel.getMetrics s).2.heap.metricsObjs s.metricsAddr).memoryUsage ∧
        ((HeapModel.getMetrics s).2.heap.metricsObjs (HeapModel.getMetrics s).1).errors
          = ((HeapModel.getMetrics s).2.heap.metricsObjs s.metricsAddr).errors ∧
        ((HeapModel.getMetrics s).2.heap.metricsObjs (HeapModel.getMetrics s).1).capabilityUsage
          = ((HeapModel.getMetrics s).2.heap.metricsObjs s.metricsAddr).capabilityUsage) ∧
      ∀ v : Nat,
        ((HeapModel.getMetrics s).2.heap.writeTotalRequests
            (HeapModel.getMetrics s).1 v).metricsObjs s.metricsAddr
          = (HeapModel.getMetrics s).2.heap.metricsObjs s.metricsAddr := by
  have hne : s.metricsAddr ≠ s.heap.nextMetrics := Nat.ne_of_lt wf
  refine ⟨?_, rfl, ⟨?_, ?_, ?_⟩, ?_⟩ <;>
    · simp only [HeapModel.getMetrics, HeapModel.Heap.allocMetrics,
        HeapModel.Heap.writeTotalRequests]
      simp [Function.update_noteq hne, Function.update_noteq (Ne.symm hne)]
      try exact Ne.symm hne

/-- Witness for the amended C5 theorem at a freshly constructed tracker. -/
theorem metrics_snapshot_shallow_witness :
    (HeapModel.getMetrics HeapModel.new).1 ≠ HeapModel.new.metricsAddr ∧
      (HeapModel.getMetrics HeapModel.new).2.metricsAddr = HeapModel.new.metricsAddr ∧
      (((HeapModel.getMetrics HeapModel.new).2.heap.metricsObjs
            (HeapModel.getMetrics HeapModel.new).1).memoryUsage
          = ((HeapModel.getMetrics HeapModel.new).2.heap.metricsObjs
              HeapModel.new.metricsAddr).memoryUsage ∧
        ((HeapModel.getMetrics HeapModel.new).2.heap.metricsObjs
            (HeapModel.getMetrics HeapModel.new).1).errors
          = ((HeapModel.getMetrics HeapModel.new).2.heap.metricsObjs
              HeapModel.new.metricsAddr).errors ∧
        ((HeapModel.getMetrics HeapModel.new).2.heap.metricsObjs
            (HeapModel.getMetrics HeapModel.new).1).capabilityUsage
          = ((HeapModel.getMetrics HeapModel.new).2.heap.metricsObjs
              HeapModel.new.metricsAddr).capabilityUsage) ∧
      ∀ v : Nat,
        ((HeapModel.getMetrics HeapModel.new).2.heap.writeTotalRequests
            (HeapModel.getMetrics HeapModel.new).1 v).metricsObjs
            HeapModel.new.metricsAddr
          = (HeapModel.getMetrics HeapModel.new).2.heap.metricsObjs
              HeapModel.new.metricsAddr :=
  metrics_snapshot_shallow HeapModel.new (by decide)

/-- C8: `averageProcessingTime` follows the EMA `new = 0.1·x + 0.9·old`
seeded at 0: the first `updateMetrics x …` on a fresh tracker yields exactly
`0.1·x`, and a second call with `x₂` yields `0.1·x₂ + 0.9·(0.1·x₁)` via the
two sequential EMA steps. -/
theorem metricsTracker_ema_seed (x₁ x₂ : ℚ) (s₁ s₂ : Bool) (a b c d : Nat) :
    (MetricsTracker.updateMetrics MetricsTracker.initializeMetrics x₁ s₁ a b).averageProcessingTime
        = (1 / 10) * x₁ ∧
      (MetricsTracker.updateMetrics
          (MetricsTracker.updateMetrics MetricsTracker.initializeMetrics x₁ s₁ a b)
          x₂ s₂ c d).averageProcessingTime
        = (1 / 10) * x₂ + (9 / 10) * ((1 / 10) * x₁) := by
  constructor <;>
    · simp only [MetricsTracker.updateMetrics, MetricsTracker.initializeMetrics]
      ring

/-! ### Frame lemmas for the request pipeline -/

namespace AgentRuntime

theorem generateId_state (st : RuntimeState) :
    (generateId st).2 = { st with idCounter := st.idCounter + 1 } := rfl

theorem storeInMemory_eq (o : Oracles) (st : RuntimeState) (content : String) :
    storeInMemory o st content = st := by
  unfold storeInMemory
  by_cases h : st.memoryPresent <;> simp [h]
  cases o.generateEmbeddings content with
  | ok e =>
    cases o.addMemory true with
    | ok u => rfl
    | error e2 => cases o.addMemory false <;> rfl
  | error e => cases o.addMemory false <;> rfl

theorem createAgentContext_state (st : RuntimeState) (pc : GraphContext) :
    (createAgentContext st pc).2 = st ∨
      (createAgentContext st pc).2 = { st with idCounter := st.idCounter + 1 } := by
  unfold createAgentContext
  cases pc.sessionId with
  | none => exact Or.inr rfl
  | some sid =>
    by_cases h : sid = "" <;> simp [h]
    exact Or.inr rfl

theorem addToConversationHistory_metricsCalls (st : RuntimeState) (r : Role) (c : String) :
    (addToConversationHistory st r c).metricsCalls = st.metricsCalls := rfl

theorem addToConversationHistory_clusteringEnabled (st : RuntimeState) (r : Role) (c : String) :
    (addToConversationHistory st r c).clusteringEnabled = st.clusteringEnabled := rfl

theorem analyzeInput_state (o : Oracles) (st : RuntimeState) (content : String) :
    (analyzeInput o st content).2 = st ∨
      (analyzeInput o st content).2 = { st with idCounter := st.idCounter + 1 } := by
  unfold analyzeInput
  split <;>
    · split
      · exact Or.inr rfl
      · split
        · exact Or.inl rfl
        · exact Or.inr rfl

theorem toolResultMessage_state (o : Oracles) (st : RuntimeState) (tc : ToolCallReq) :
    (toolResultMessage o st tc).2 = { st with idCounter := st.idCounter + 1 } := by
  unfold toolResultMessage
  cases executeToolCall o st tc <;> rfl

theorem execToolCalls_state (o : Oracles) : ∀ (tcs : List ToolCallReq)
    (st : RuntimeState) (msgs : List ChatMessage),
    (execToolCalls o st msgs tcs).2 = { st with idCounter := st.idCounter + tcs.length } := by
  intro tcs
  induction tcs with
  | nil => intro st msgs; rfl
  | cons tc rest ih =>
    intro st msgs
    show (execToolCalls o (toolResultMessage o st tc).2 _ rest).2 = _
    rw [ih, toolResultMessage_state]
    have h : st.idCounter + 1 + rest.length = st.idCounter + (tc :: rest).length := by
      simp; omega
    simp only [h]

theorem toolLoop_frame (o : Oracles) : ∀ (n : Nat) (st : RuntimeState)
    (msgs : List ChatMessage),
    ((toolLoop o n st msgs).2).metricsCalls = st.metricsCalls ∧
      ((toolLoop o n st msgs).2).clusteringEnabled = st.clusteringEnabled ∧
      ((toolLoop o n st msgs).2).conversationHistory = st.conversationHistory ∧
      ((toolLoop o n st msgs).2).workingMemorySize = st.workingMemorySize ∧
      ((toolLoop o n st msgs).2).llmCalls ≤ st.llmCalls + n := by
  intro n
  induction n with
  | zero =>
    intro st msgs
    exact ⟨rfl, rfl, rfl, rfl, Nat.le_add_right _ _⟩
  | succ n ih =>
    intro st msgs
    unfold toolLoop
    cases hg : o.generateText st.llmCalls with
    | error e => exact ⟨rfl, rfl, rfl, rfl, Nat.le_add_right _ _⟩
    | ok llmResponse =>
      dsimp only
      by_cases h : llmResponse.toolCalls.length > 0
      · rw [if_pos h, execToolCalls_state]
        obtain ⟨h1, h2, h3, h4, h5⟩ := ih
          { { st with llmCalls := st.llmCalls + 1 } with
            idCounter := st.idCounter + llmResponse.toolCalls.length }
          (execToolCalls o { st with llmCalls := st.llmCalls + 1 }
            (msgs ++ [⟨MsgRole.assistant, llmResponse.reply, none⟩]) llmResponse.toolCalls).1
        exact ⟨h1, h2, h3, h4,
          h5.trans (by show st.llmCalls + 1 + n ≤ st.llmCalls + (n + 1); omega)⟩
      · rw [if_neg h]
        refine ⟨rfl, rfl, rfl, rfl, ?_⟩
        show st.llmCalls + 1 ≤ st.llmCalls + (n + 1)
        omega

theorem createAgentContext_metricsCalls (st : RuntimeState) (pc : GraphContext) :
    ((createAgentContext st pc).2).metricsCalls = st.metricsCalls := by
  rcases createAgentContext_state st pc with h | h <;> rw [h]

theorem createAgentContext_clusteringEnabled (st : RuntimeState) (pc : GraphContext) :
    ((createAgentContext st pc).2).clusteringEnabled = st.clusteringEnabled := by
  rcases createAgentContext_state st pc with h | h <;> rw [h]

theorem generateResponse_frame (o : Oracles) (st : RuntimeState) (aStep : ReasoningStep) :
    ((generateResponse o st aStep).2).metricsCalls = st.metricsCalls ∧
      ((generateResponse o st aStep).2).clusteringEnabled = st.clusteringEnabled ∧
      ((generateResponse o st aStep).2).conversationHistory = st.conversationHistory ∧
      ((generateResponse o st aStep).2).workingMemorySize = st.workingMemorySize := by
  unfold generateResponse
  cases hb : buildConversationMessages st aStep with
  | error e => exact ⟨rfl, rfl, rfl, rfl⟩
  | ok messages =>
    dsimp only
    obtain ⟨h1, h2, h3, h4, _⟩ := toolLoop_frame o maxIterations st messages
    rcases hl : toolLoop o maxIterations st messages with ⟨res, st2⟩
    rw [hl] at h1 h2 h3 h4
    cases res with
    | error e => exact ⟨h1, h2, h3, h4⟩
    | ok p => exact ⟨h1, h2, h3, h4⟩

theorem reasonAndRespond_frame (o : Oracles) (st : RuntimeState) (content : String) :
    ((reasonAndRespond o st content).2).metricsCalls = st.metricsCalls ∧
      ((reasonAndRespond o st content).2).clusteringEnabled = st.clusteringEnabled := by
  unfold reasonAndRespond
  rcases ha : analyzeInput o st content with ⟨ra, st1⟩
  have hst1 : st1 = st ∨ st1 = { st with idCounter := st.idCounter + 1 } := by
    have h := analyzeInput_state o st content
    rw [ha] at h
    exact h
  have fields1 : st1.metricsCalls = st.metricsCalls ∧
      st1.clusteringEnabled = st.clusteringEnabled := by
    rcases hst1 with h | h <;> rw [h] <;> exact ⟨rfl, rfl⟩
  cases ra with
  | error e => exact fields1
  | ok aStep =>
    dsimp only
    obtain ⟨g1, g2, _, _⟩ := generateResponse_frame o st1 aStep
    rcases hg : generateResponse o st1 aStep with ⟨rg, st2⟩
    rw [hg] at g1 g2
    cases rg with
    | error e => exact ⟨g1.trans fields1.1, g2.trans fields1.2⟩
    | ok step => exact ⟨g1.trans fields1.1, g2.trans fields1.2⟩

theorem initializeClustering_frame (o : Oracles) (st : RuntimeState) (now : Int) :
    (initializeClustering o st now).metricsCalls = st.metricsCalls ∧
      (initializeClustering o st now).conversationHistory = st.conversationHistory ∧
      (initializeClustering o st now).workingMemorySize = st.workingMemorySize ∧
      (st.clusteringEnabled = false →
        (initializeClustering o st now).clusteringEnabled = false) := by
  unfold initializeClustering
  split
  · exact ⟨rfl, rfl, rfl, fun h => h⟩
  · split
    · exact ⟨rfl, rfl, rfl, fun h => h⟩
    · cases o.createClusters st.createClustersCalls with
      | ok cs => exact ⟨rfl, rfl, rfl, fun h => h⟩
      | error e => exact ⟨rfl, rfl, rfl, fun h => rfl⟩

theorem initializeAgent_frame (o : Oracles) (st : RuntimeState) :
    ((initializeAgent o st).2).metricsCalls = st.metricsCalls ∧
      ((initializeAgent o st).2).conversationHistory = st.conversationHistory ∧
      ((initializeAgent o st).2).workingMemorySize = st.workingMemorySize ∧
      (st.clusteringEnabled = false →
        ((initializeAgent o st).2).clusteringEnabled = false) := by
  unfold initializeAgent
  split
  · exact ⟨rfl, rfl, rfl, fun h => h⟩
  · cases o.createMemoryInstance with
    | error e => exact ⟨rfl, rfl, rfl, fun h => h⟩
    | ok u =>
      obtain ⟨c1, c2, c3, c4⟩ := initializeClustering_frame o
        { st with memoryPresent := true, isInitialized := true } o.nowStart
      exact ⟨c1, c2, c3, fun h => c4 h⟩

theorem ensureInitialized_frame (o : Oracles) (st : RuntimeState) :
    ((ensureInitialized o st).2).metricsCalls = st.metricsCalls ∧
      ((ensureInitialized o st).2).conversationHistory = st.conversationHistory ∧
      ((ensureInitialized o st).2).workingMemorySize = st.workingMemorySize ∧
      (st.clusteringEnabled = false →
        ((ensureInitialized o st).2).clusteringEnabled = false) := by
  unfold ensureInitialized
  split
  · exact initializeAgent_frame o st
  · exact ⟨rfl, rfl, rfl, fun h => h⟩

theorem updateClustering_enabled_eq (o : Oracles) (st : RuntimeState) (now : Int) :
    (updateClusteringIfNeeded o st now).clusteringEnabled = st.clusteringEnabled := by
  unfold updateClusteringIfNeeded
  split
  · rfl
  · split
    · rfl
    · dsimp only
      by_cases h : now - st.lastClusteringUpdate > 5 * 60 * 1000
      · rw [if_pos h]
        cases o.createClusters st.createClustersCalls <;> rfl
      · rw [if_neg h]

theorem processRequestTry_enabled_false (o : Oracles) (st : RuntimeState)
    (input : AgentInput) (pc : GraphContext) (h : st.clusteringEnabled = false) :
    ((processRequestTry o st input pc).2).clusteringEnabled = false := by
  unfold processRequestTry
  have hE := (ensureInitialized_frame o st).2.2.2 h
  rcases hi : ensureInitialized o st with ⟨ri, st1⟩
  rw [hi] at hE
  cases ri with
  | error e => exact hE
  | ok u =>
    dsimp only
    cases hp : processInput o input with
    | error e => exact hE
    | ok pin =>
      dsimp only
      rw [storeInMemory_eq]
      have h3 : (addToConversationHistory (createAgentContext st1 pc).2 .user
          pin.content).clusteringEnabled = false :=
        (createAgentContext_clusteringEnabled st1 pc).trans hE
      have h5 := (reasonAndRespond_frame o
        (addToConversationHistory (createAgentContext st1 pc).2 .user pin.content)
        pin.content).2
      rcases hr : reasonAndRespond o
          (addToConversationHistory (createAgentContext st1 pc).2 .user pin.content)
          pin.content with ⟨rr, st5⟩
      rw [hr] at h5
      cases rr with
      | error e => exact h5.trans h3
      | ok resp =>
        dsimp only
        split
        · exact h5.trans h3
        · exact h5.trans h3

theorem processRequestTry_metricsCalls_of_error (o : Oracles) (st : RuntimeState)
    (input : AgentInput) (pc : GraphContext) (e : Err)
    (h : (processRequestTry o st input pc).1 = .error e) :
    ((processRequestTry o st input pc).2).metricsCalls = st.metricsCalls := by
  unfold processRequestTry at h ⊢
  have hE := (ensureInitialized_frame o st).1
  rcases hi : ensureInitialized o st with ⟨ri, st1⟩
  rw [hi] at hE
  cases ri with
  | error e2 => exact hE
  | ok u =>
    dsimp only at h ⊢
    cases hp : processInput o input with
    | error e2 => exact hE
    | ok pin =>
      rw [hi] at h
      dsimp only at h
      rw [hp] at h
      dsimp only at h ⊢
      rw [storeInMemory_eq] at h ⊢
      have h3 : (addToConversationHistory (createAgentContext st1 pc).2 .user
          pin.content).metricsCalls = st.metricsCalls :=
        (createAgentContext_metricsCalls st1 pc).trans hE
      have h5 := (reasonAndRespond_frame o
        (addToConversationHistory (createAgentContext st1 pc).2 .user pin.content)
        pin.content).1
      rcases hr : reasonAndRespond o
          (addToConversationHistory (createAgentContext st1 pc).2 .user pin.content)
          pin.content with ⟨rr, st5⟩
      rw [hr] at h5 h
      cases rr with
      | error e2 => exact h5.trans h3
      | ok resp =>
        dsimp only at h
        split at h <;> simp at h

theorem processRequest_of_error (o : Oracles) (st : RuntimeState)
    (input : AgentInput) (pc : GraphContext) (e : Err)
    (h : (processRequestTry o st input pc).1 = .error e) :
    processRequest o st input pc
      = ({ content := apologyText e.message
           reasoning := []
           metadata :=
             { processingTime := ((o.nowCatch - o.nowStart : Int) : ℚ)
               confidence := 0 }
           audioPath := none },
         updateMetricsOn (processRequestTry o st input pc).2 (o.nowStart : ℚ) false) := by
  unfold processRequest
  rcases hp : processRequestTry o st input pc with ⟨r, st2⟩
  rw [hp] at h
  cases r with
  | ok resp => simp at h
  | error e2 =>
    dsimp only at h
    injection h with h
    subst h
    rfl

theorem exc_ite_ok {α : Type} {c : Prop} [Decidable c] (x y : α) :
    ∃ z, (if c then (Except.ok x : Exc α) else .ok y) = .ok z := by
  split
  · exact ⟨x, rfl⟩
  · exact ⟨y, rfl⟩

theorem buildContextMessage_ok (aStep : ReasoningStep) (a : AnalysisData)
    (h : aStep.output = .analysis a) :
    ∃ copt, buildContextMessage aStep = .ok copt := by
  unfold buildContextMessage
  rw [h]
  dsimp only
  exact exc_ite_ok _ _

theorem buildConversationMessages_ok (st : RuntimeState) (aStep : ReasoningStep)
    (a : AnalysisData) (h : aStep.output = .analysis a) :
    ∃ msgs, buildConversationMessages st aStep = .ok msgs := by
  obtain ⟨copt, hc⟩ := buildContextMessage_ok aStep a h
  unfold buildConversationMessages
  rw [hc]
  cases copt with
  | none => exact ⟨_, rfl⟩
  | some c => exact ⟨_, rfl⟩

theorem toolLoop_allToolCalls (o : Oracles)
    (htc : ∀ i, ∃ reply, o.generateText i = .ok reply ∧ reply.toolCalls ≠ []) :
    ∀ (n : Nat) (st : RuntimeState) (msgs : List ChatMessage),
    ∃ msgs' st', toolLoop o n st msgs = (.ok (none, msgs'), st') ∧
      st'.llmCalls = st.llmCalls + n := by
  intro n
  induction n with
  | zero => intro st msgs; exact ⟨msgs, st, rfl, rfl⟩
  | succ n ih =>
    intro st msgs
    obtain ⟨reply, hg, hne⟩ := htc st.llmCalls
    unfold toolLoop
    rw [hg]
    dsimp only
    rw [if_pos (by simpa using List.length_pos.mpr hne)]
    obtain ⟨msgs', st', heq, hllm⟩ := ih
      (execToolCalls o { st with llmCalls := st.llmCalls + 1 }
        (msgs ++ [⟨MsgRole.assistant, reply.reply, none⟩]) reply.toolCalls).2
      (execToolCalls o { st with llmCalls := st.llmCalls + 1 }
        (msgs ++ [⟨MsgRole.assistant, reply.reply, none⟩]) reply.toolCalls).1
    refine ⟨msgs', st', heq, ?_⟩
    rw [hllm, execToolCalls_state]
    show st.llmCalls + 1 + n = st.llmCalls + (n + 1)
    omega

theorem toolLoop_ok (o : Oracles)
    (hg : ∀ i, ∃ reply, o.generateText i = .ok reply) :
    ∀ (n : Nat) (st : RuntimeState) (msgs : List ChatMessage),
    ∃ res st', toolLoop o n st msgs = (.ok res, st') := by
  intro n
  induction n with
  | zero => intro st msgs; exact ⟨(none, msgs), st, rfl⟩
  | succ n ih =>
    intro st msgs
    obtain ⟨reply, hr⟩ := hg st.llmCalls
    unfold toolLoop
    rw [hr]
    dsimp only
    by_cases h : reply.toolCalls.length > 0
    · rw [if_pos h]
      exact ih _ _
    · rw [if_neg h]
      exact ⟨_, _, rfl⟩

theorem generateResponse_ok_shape (o : Oracles) (st : RuntimeState)
    (aStep r : ReasoningStep) (st2 : RuntimeState)
    (h : generateResponse o st aStep = (.ok r, st2)) :
    r.type = .reflection ∧ r.confidence = 95 / 100 := by
  unfold generateResponse at h
  split at h
  · simp at h
  · split at h
    · simp at h
    · injection h with h1 h2
      injection h1 with h1
      subst h1
      exact ⟨rfl, rfl⟩

theorem generateResponse_null_err (o : Oracles) (st : RuntimeState)
    (aStep : ReasoningStep) (h : aStep.output = .nullV) :
    ∃ e st2, generateResponse o st aStep = (.error e, st2) := by
  unfold generateResponse buildConversationMessages buildContextMessage
  rw [h]
  exact ⟨_, _, rfl⟩

theorem analyzeInput_ok_shape (o : Oracles) (st : RuntimeState) (content : String)
    (s : ReasoningStep) (st1 : RuntimeState)
    (h : analyzeInput o st content = (.ok s, st1)) :
    (s.type = .error ∧ s.output = .nullV ∧ s.confidence = 0) ∨
      (s.type = .analysis ∧ (∃ a, s.output = .analysis a) ∧ s.confidence = 8 / 10) := by
  unfold analyzeInput at h
  split at h <;>
    · dsimp only at h
      split at h
      · injection h with h1 h2
        injection h1 with h1
        subst h1
        exact Or.inl ⟨rfl, rfl, rfl⟩
      · split at h
        · simp at h
        · injection h with h1 h2
          injection h1 with h1
          subst h1
          exact Or.inr ⟨rfl, ⟨_, rfl⟩, rfl⟩

theorem reasonAndRespond_ok_shape (o : Oracles) (st : RuntimeState)
    (content : String) (resp : AgentResponse) (st5 : RuntimeState)
    (h : reasonAndRespond o st content = (.ok resp, st5)) :
    ∃ a r, resp.reasoning = [a, r] ∧ a.type = .analysis ∧ r.type = .reflection ∧
      resp.metadata.processingTime = a.confidence + r.confidence := by
  unfold reasonAndRespond at h
  rcases ha : analyzeInput o st content with ⟨ra, st1⟩
  rw [ha] at h
  cases ra with
  | error e => simp at h
  | ok aStep =>
    dsimp only at h
    rcases hg : generateResponse o st1 aStep with ⟨rg, st2⟩
    rw [hg] at h
    cases rg with
    | error e => simp at h
    | ok rStep =>
      dsimp only at h
      obtain ⟨g1, g2⟩ := generateResponse_ok_shape o st1 aStep rStep st2 hg
      rcases analyzeInput_ok_shape o st content aStep st1 ha with
        ⟨hty, hout, hconf⟩ | ⟨hty, ⟨a0, hout⟩, hconf⟩
      · obtain ⟨e2, st3, hgerr⟩ := generateResponse_null_err o st1 aStep hout
        rw [hgerr] at hg
        simp at hg
      · injection h with h1 h2
        injection h1 with h1
        subst h1
        refine ⟨aStep, rStep, rfl, hty, g1, ?_⟩
        show (List.map ReasoningStep.confidence [aStep, rStep]).sum = _
        simp

theorem processRequest_of_ok (o : Oracles) (st : RuntimeState)
    (input : AgentInput) (pc : GraphContext) (resp : AgentResponse)
    (h : (processRequestTry o st input pc).1 = .ok resp) :
    (processRequest o st input pc).1 = resp := by
  unfold processRequest
  rcases hp : processRequestTry o st input pc with ⟨r, st2⟩
  rw [hp] at h
  cases r with
  | error e => simp at h
  | ok r0 =>
    dsimp only at h
    simp only [Except.ok.injEq] at h
    exact h

theorem processRequestTry_ok_shape (o : Oracles) (st : RuntimeState)
    (input : AgentInput) (pc : GraphContext) (resp : AgentResponse)
    (h : (processRequestTry o st input pc).1 = .ok resp) :
    ∃ a r, resp.reasoning = [a, r] ∧ a.type = .analysis ∧ r.type = .reflection ∧
      resp.metadata.processingTime = a.confidence + r.confidence := by
  unfold processRequestTry at h
  rcases hi : ensureInitialized o st with ⟨ri, st1⟩
  rw [hi] at h
  cases ri with
  | error e => simp at h
  | ok u =>
    dsimp only at h
    cases hp : processInput o input with
    | error e => rw [hp] at h; simp at h
    | ok pin =>
      rw [hp] at h
      dsimp only at h
      rw [storeInMemory_eq] at h
      rcases hr : reasonAndRespond o
          (addToConversationHistory (createAgentContext st1 pc).2 .user pin.content)
          pin.content with ⟨rr, st5⟩
      rw [hr] at h
      cases rr with
      | error e => simp at h
      | ok resp0 =>
        dsimp only at h
        obtain ⟨a, r, s1, s2, s3, s4⟩ := reasonAndRespond_ok_shape o
          (addToConversationHistory (createAgentContext st1 pc).2 .user pin.content)
          pin.content resp0 st5 hr
        split at h
        · injection h with h
          subst h
          exact ⟨a, r, s1, s2, s3, s4⟩
        · injection h with h
          subst h
          exact ⟨a, r, s1, s2, s3, s4⟩

end AgentRuntime

/-- C1: `processRequest` is total — it returns an `AgentResponse` for every
input and every collaborator behaviour — and whenever an exception was
raised inside the pipeline (the `try` body), the returned response's
content is the apology text, its `metadata.confidence` is 0, and the
metrics tracker was updated exactly once more, with `success = false`. -/
theorem processRequest_error_handling (o : Oracles) (st : RuntimeState)
    (input : AgentRuntime.AgentInput) (pc : GraphContext) (e : Err)
    (h : (AgentRuntime.processRequestTry o st input pc).1 = .error e) :
    (AgentRuntime.processRequest o st input pc).1.content
        = AgentRuntime.apologyText e.message ∧
      (AgentRuntime.processRequest o st input pc).1.metadata.confidence = 0 ∧
      ((AgentRuntime.processRequest o st input pc).2).metricsCalls
        = st.metricsCalls ++
            [⟨(o.nowStart : ℚ), false,
              ((AgentRuntime.processRequestTry o st input pc).2).conversationHistory.length,
              ((AgentRuntime.processRequestTry o st input pc).2).workingMemorySize⟩] := by
  have hm := AgentRuntime.processRequestTry_metricsCalls_of_error o st input pc e h
  rw [AgentRuntime.processRequest_of_error o st input pc e h]
  refine ⟨rfl, rfl, ?_⟩
  show ((AgentRuntime.processRequestTry o st input pc).2).metricsCalls ++ _ = _
  rw [hm]

/-- Witness for C1: an initialized runtime whose `queryMemory` collaborator
throws `boom` inside step 6. -/
theorem processRequest_error_handling_witness :
    (AgentRuntime.processRequest failingMemQueryOracles readyState
          (.str "hi") ⟨none, none, none⟩).1.content
        = AgentRuntime.apologyText "boom" ∧
      (AgentRuntime.processRequest failingMemQueryOracles readyState
          (.str "hi") ⟨none, none, none⟩).1.metadata.confidence = 0 ∧
      ((AgentRuntime.processRequest failingMemQueryOracles readyState
          (.str "hi") ⟨none, none, none⟩).2).metricsCalls
        = readyState.metricsCalls ++
            [⟨((failingMemQueryOracles).nowStart : ℚ), false,
              ((AgentRuntime.processRequestTry failingMemQueryOracles readyState
                  (.str "hi") ⟨none, none, none⟩).2).conversationHistory.length,
              ((AgentRuntime.processRequestTry failingMemQueryOracles readyState
                  (.str "hi") ⟨none, none, none⟩).2).workingMemorySize⟩] :=
  processRequest_error_handling failingMemQueryOracles readyState
    (.str "hi") ⟨none, none, none⟩ ⟨"boom"⟩ rfl

/-- C4 counterexample: a failing clustering refresh in
`updateClusteringIfNeeded` (more than 5 minutes elapsed, `createClusters`
throws) does not trip the latch: the routine was invoked
(`createClustersCalls` goes 0 → 1) and failed, yet `clusteringEnabled`
remains `true` afterwards. -/
theorem clustering_latch_counterexample :
    (AgentRuntime.updateClusteringIfNeeded failingClusterOracles readyState
        600000).createClustersCalls = 1 ∧
      (AgentRuntime.updateClusteringIfNeeded failingClusterOracles readyState
        600000).clusteringEnabled = true :=
  ⟨rfl, rfl⟩

/-- C4 amended: the one-way latch exists only on the bootstrap path.  A
clustering failure inside `initializeClustering` permanently sets
`clusteringEnabled = false`; a failure during the periodic refresh leaves
the flag unchanged; and once the flag is `false` no operation
(`initializeClustering`, `updateClusteringIfNeeded`, `initializeAgent`,
`processRequest`, `clear`) ever sets it back to `true`. -/
theorem clustering_latch_amended :
    (∀ (o : Oracles) (st : RuntimeState) (now : Int) (e : Err),
        st.clusteringEnabled = true → st.memoryPresent = true →
        o.createClusters st.createClustersCalls = .error e →
        (AgentRuntime.initializeClustering o st now).clusteringEnabled = false) ∧
      (∀ (o : Oracles) (st : RuntimeState) (now : Int),
        (AgentRuntime.updateClusteringIfNeeded o st now).clusteringEnabled
          = st.clusteringEnabled) ∧
      (∀ (o : Oracles) (st : RuntimeState) (input : AgentRuntime.AgentInput)
          (pc : GraphContext) (now : Int),
        st.clusteringEnabled = false →
          (AgentRuntime.initializeClustering o st now).clusteringEnabled = false ∧
          (AgentRuntime.updateClusteringIfNeeded o st now).clusteringEnabled = false ∧
          ((AgentRuntime.initializeAgent o st).2).clusteringEnabled = false ∧
          ((AgentRuntime.processRequest o st input pc).2).clusteringEnabled = false ∧
          (AgentRuntime.clearState st now).clusteringEnabled = false) := by
  refine ⟨?_, ?_, ?_⟩
  · intro o st now e h1 h2 h3
    unfold AgentRuntime.initializeClustering
    rw [h1, h2, h3]
    rfl
  · intro o st now
    exact AgentRuntime.updateClustering_enabled_eq o st now
  · intro o st input pc now h
    refine ⟨(AgentRuntime.initializeClustering_frame o st now).2.2.2 h,
            (AgentRuntime.updateClustering_enabled_eq o st now).trans h,
            (AgentRuntime.initializeAgent_frame o st).2.2.2 h, ?_, h⟩
    unfold AgentRuntime.processRequest
    have hT := AgentRuntime.processRequestTry_enabled_false o st input pc h
    rcases hp : AgentRuntime.processRequestTry o st input pc with ⟨r, st2⟩
    rw [hp] at hT
    cases r with
    | ok resp => exact hT
    | error e => exact hT

/-- Witness for the amended C4 theorem: a failing bootstrap latches the
flag; a rate-limited refresh keeps it; a full request on a latched runtime
leaves it latched. -/
theorem clustering_latch_amended_witness :
    (AgentRuntime.initializeClustering failingClusterOracles readyState
        0).clusteringEnabled = false ∧
      (AgentRuntime.updateClusteringIfNeeded okOracles readyState
          1000).clusteringEnabled = readyState.clusteringEnabled ∧
      ((AgentRuntime.processRequest okOracles disabledState (.str "hi")
          ⟨none, none, none⟩).2).clusteringEnabled = false :=
  ⟨clustering_latch_amended.1 failingClusterOracles readyState 0
      ⟨"clustering failed"⟩ rfl rfl rfl,
    clustering_latch_amended.2.1 okOracles readyState 1000,
    (clustering_latch_amended.2.2 okOracles disabledState (.str "hi")
        ⟨none, none, none⟩ 0 rfl).2.2.2.1⟩

/-- C9: calling `updateClusteringIfNeeded` less than 5 minutes after the
last clustering update is a no-op: the state — in particular `clusters`
and `lastClusteringUpdate` — is unchanged, and the clustering routine is
not invoked (`createClustersCalls` included in the unchanged state). -/
theorem updateClustering_rate_limited (o : Oracles) (st : RuntimeState) (now : Int)
    (h : now - st.lastClusteringUpdate < 5 * 60 * 1000) :
    AgentRuntime.updateClusteringIfNeeded o st now = st := by
  unfold AgentRuntime.updateClusteringIfNeeded
  split
  · rfl
  · split
    · rfl
    · dsimp only
      rw [if_neg (by omega)]

/-- Witness for C9: a refresh 1 second after the last update is a no-op. -/
theorem updateClustering_rate_limited_witness :
    AgentRuntime.updateClusteringIfNeeded okOracles readyState 1000 = readyState :=
  updateClustering_rate_limited okOracles readyState 1000 (by decide)

/-- C3: the tool-call loop performs at most `maxIterations = 5` LLM
round-trips; and if every LLM reply contains at least one tool call, it
performs exactly 5 round-trips, terminates without throwing, and the
resulting reflection step's `output.response` is the fixed fallback
string. -/
theorem toolLoop_liveness :
    (∀ (o : Oracles) (st : RuntimeState) (msgs : List ChatMessage),
        ((AgentRuntime.toolLoop o AgentRuntime.maxIterations st msgs).2).llmCalls
          ≤ st.llmCalls + 5) ∧
      ∀ (o : Oracles) (st : RuntimeState) (aStep : ReasoningStep) (a : AnalysisData),
        aStep.output = .analysis a →
        (∀ i, ∃ reply, o.generateText i = .ok reply ∧ reply.toolCalls ≠ []) →
        ∃ (step : ReasoningStep) (st' : RuntimeState),
          AgentRuntime.generateResponse o st aStep = (.ok step, st') ∧
            st'.llmCalls = st.llmCalls + 5 ∧
            step.output
              = .response "Unable to generate response after maximum iterations." ∧
            step.type = .reflection := by
  constructor
  · intro o st msgs
    exact (AgentRuntime.toolLoop_frame o AgentRuntime.maxIterations st msgs).2.2.2.2
  · intro o st aStep a hout htc
    obtain ⟨msgs, hb⟩ := AgentRuntime.buildConversationMessages_ok st aStep a hout
    obtain ⟨msgs', st2, heq, hllm⟩ :=
      AgentRuntime.toolLoop_allToolCalls o htc AgentRuntime.maxIterations st msgs
    unfold AgentRuntime.generateResponse
    rw [hb]
    dsimp only
    rw [heq]
    exact ⟨_, _, rfl, hllm, rfl, rfl⟩

/-- Witness for C3: with an LLM that always requests `read_file`, the loop
on a ready runtime makes exactly 5 round-trips and falls back. -/
theorem toolLoop_liveness_witness :
    ((AgentRuntime.toolLoop okOracles AgentRuntime.maxIterations readyState
        []).2).llmCalls ≤ readyState.llmCalls + 5 ∧
      ∃ (step : ReasoningStep) (st' : RuntimeState),
        AgentRuntime.generateResponse allToolCallOracles readyState sampleAnalysisStep
            = (.ok step, st') ∧
          st'.llmCalls = readyState.llmCalls + 5 ∧
          step.output
            = .response "Unable to generate response after maximum iterations." ∧
          step.type = .reflection :=
  ⟨toolLoop_liveness.1 okOracles readyState [],
    toolLoop_liveness.2 allToolCallOracles readyState sampleAnalysisStep
      sampleAnalysis rfl
      (fun _ => ⟨⟨"thinking", [⟨some ("read_file", "x"), "", ""⟩]⟩, rfl,
        List.cons_ne_nil _ _⟩)⟩

/-- C6: a tool call whose name has no registered executor, or whose
executor throws, still yields a tool-role message whose serialized content
is the error JSON object; every requested call appends exactly one message
(the loop proceeds past failures); and with an LLM that always replies,
`generateResponse` completes without throwing whatever the tools do. -/
theorem toolFailure_resilience :
    (∀ (o : Oracles) (st : RuntimeState) (tc : ToolCallReq),
        st.toolExecutors.contains (AgentRuntime.toolCallName tc) = false →
        (AgentRuntime.toolResultMessage o st tc).1
          = ⟨.tool,
             AgentRuntime.errorJson
               ("No executor for tool " ++ AgentRuntime.toolCallName tc),
             some (AgentRuntime.generateId st).1⟩) ∧
      (∀ (o : Oracles) (st : RuntimeState) (tc : ToolCallReq) (e : Err),
        st.toolExecutors.contains (AgentRuntime.toolCallName tc) = true →
        o.toolExec (AgentRuntime.toolCallName tc) (AgentRuntime.toolCallArgs tc)
            = .error e →
        (AgentRuntime.toolResultMessage o st tc).1
          = ⟨.tool, AgentRuntime.errorJson e.message,
             some (AgentRuntime.generateId st).1⟩) ∧
      (∀ (o : Oracles) (st : RuntimeState) (msgs : List ChatMessage)
          (tcs : List ToolCallReq),
        ((AgentRuntime.execToolCalls o st msgs tcs).1).length
          = msgs.length + tcs.length) ∧
      ∀ (o : Oracles) (st : RuntimeState) (aStep : ReasoningStep) (a : AnalysisData),
        aStep.output = .analysis a →
        (∀ i, ∃ reply, o.generateText i = .ok reply) →
        ∃ r st', AgentRuntime.generateResponse o st aStep = (.ok r, st') := by
  refine ⟨?_, ?_, ?_, ?_⟩
  · intro o st tc h
    unfold AgentRuntime.toolResultMessage AgentRuntime.executeToolCall
    dsimp only
    rw [h]
    rfl
  · intro o st tc e h1 h2
    unfold AgentRuntime.toolResultMessage AgentRuntime.executeToolCall
    dsimp only
    rw [h1, if_pos rfl, h2]
  · intro o st msgs tcs
    induction tcs generalizing st msgs with
    | nil => simp [AgentRuntime.execToolCalls]
    | cons tc rest ih =>
      show ((AgentRuntime.execToolCalls o (AgentRuntime.toolResultMessage o st tc).2
          (msgs ++ [(AgentRuntime.toolResultMessage o st tc).1]) rest).1).length = _
      rw [ih]
      simp
      omega
  · intro o st aStep a hout hg
    obtain ⟨msgs, hb⟩ := AgentRuntime.buildConversationMessages_ok st aStep a hout
    obtain ⟨res, st2, hl⟩ :=
      AgentRuntime.toolLoop_ok o hg AgentRuntime.maxIterations st msgs
    unfold AgentRuntime.generateResponse
    rw [hb]
    dsimp only
    rw [hl]
    rcases res with ⟨f, m⟩
    exact ⟨_, _, rfl⟩

/-- Witness for C6: an unregistered tool name `nope` yields the error-JSON
tool message; two calls append two messages; `generateResponse` completes. -/
theorem toolFailure_resilience_witness :
    (AgentRuntime.toolResultMessage okOracles readyState
          ⟨some ("nope", "x"), "", ""⟩).1
        = ⟨.tool,
           AgentRuntime.errorJson
             ("No executor for tool "
               ++ AgentRuntime.toolCallName ⟨some ("nope", "x"), "", ""⟩),
           some (AgentRuntime.generateId readyState).1⟩ ∧
      ((AgentRuntime.execToolCalls okOracles readyState []
            [⟨some ("nope", "x"), "", ""⟩, ⟨some ("read_file", "y"), "", ""⟩]).1).length
        = ([] : List ChatMessage).length
            + ([⟨some ("nope", "x"), "", ""⟩,
                ⟨some ("read_file", "y"), "", ""⟩] : List ToolCallReq).length ∧
      ∃ r st', AgentRuntime.generateResponse okOracles readyState sampleAnalysisStep
          = (.ok r, st') :=
  ⟨toolFailure_resilience.1 okOracles readyState ⟨some ("nope", "x"), "", ""⟩
      (by decide),
    toolFailure_resilience.2.2.1 okOracles readyState []
      [⟨some ("nope", "x"), "", ""⟩, ⟨some ("read_file", "y"), "", ""⟩],
    toolFailure_resilience.2.2.2 okOracles readyState sampleAnalysisStep
      sampleAnalysis rfl (fun _ => ⟨⟨"hello", []⟩, rfl⟩)⟩

/-- C10: on the success path the returned response's
`metadata.processingTime` is the sum of the reasoning steps' confidences
(analysis confidence + reflection confidence), not the elapsed wall-clock
time; only the error-path response reports elapsed time in that field. -/
theorem processingTime_confidence_sum (o : Oracles) (st : RuntimeState)
    (input : AgentRuntime.AgentInput) (pc : GraphContext) :
    (∀ resp, (AgentRuntime.processRequestTry o st input pc).1 = .ok resp →
        (AgentRuntime.processRequest o st input pc).1 = resp ∧
          ∃ a r, resp.reasoning = [a, r] ∧ a.type = .analysis ∧
            r.type = .reflection ∧
            resp.metadata.processingTime = a.confidence + r.confidence) ∧
      ∀ e, (AgentRuntime.processRequestTry o st input pc).1 = .error e →
        (AgentRuntime.processRequest o st input pc).1.metadata.processingTime
          = ((o.nowCatch - o.nowStart : Int) : ℚ) := by
  constructor
  · intro resp h
    exact ⟨AgentRuntime.processRequest_of_ok o st input pc resp h,
      AgentRuntime.processRequestTry_ok_shape o st input pc resp h⟩
  · intro e h
    rw [AgentRuntime.processRequest_of_error o st input pc e h]

/-- Witness for C10: on an all-ok run, the returned response's processing
time is the sum of the analysis and reflection confidences. -/
theorem processingTime_confidence_sum_witness :
    (AgentRuntime.processRequest okOracles readyState (.str "hi")
          ⟨none, none, none⟩).1
        = ((AgentRuntime.processRequestTry okOracles readyState (.str "hi")
              ⟨none, none, none⟩).1.toOption.getD ⟨"", [], ⟨0, 0⟩, none⟩) ∧
      ∃ a r,
        ((AgentRuntime.processRequestTry okOracles readyState (.str "hi")
              ⟨none, none, none⟩).1.toOption.getD ⟨"", [], ⟨0, 0⟩, none⟩).reasoning
            = [a, r] ∧
          a.type = .analysis ∧ r.type = .reflection ∧
          ((AgentRuntime.processRequestTry okOracles readyState (.str "hi")
              ⟨none, none, none⟩).1.toOption.getD
                ⟨"", [], ⟨0, 0⟩, none⟩).metadata.processingTime
            = a.confidence + r.confidence :=
  (processingTime_confidence_sum okOracles readyState (.str "hi")
      ⟨none, none, none⟩).1 _ (by with_unfolding_all rfl)

end Cortex
